import Mathlib

/-
Verification development for the PairBond pairing-and-presence store
(src/app.py): a two-person location-sharing app over SQLite.

The SQLite tables `pairs`, `locations`, `notifications` are embedded as
lists of rows inside a `DB` state record.  Timestamps (`CURRENT_TIMESTAMP`
and `datetime.datetime.now()`) are modelled at one-second granularity as a
single clock `DB.now` counting seconds since the epoch; a calendar day is
86400 seconds, so the calendar day of an instant `t` is `t / 86400`.
Latitudes and longitudes (SQLite REAL) are modelled as rationals.
`SELECT ... ORDER BY timestamp DESC` is modelled as sorting the selected
rows with a sort that is correct for the (sortedness + permutation)
semantics SQL guarantees.  A Python function that raises an uncaught
exception is modelled as returning `Except.error`; since nothing was
committed at that point, the database state observed afterwards is the
unchanged pre-state (`pyStateAfter`).
-/

namespace PairBond

/-- Row of the `pairs` table (src/app.py lines 31-40).  `user2_name` is NULL
until a second participant joins, modelled as `Option`. -/
structure Pair where
  pair_code : String
  pair_name : String
  passphrase_hash : String
  user1_name : String
  user2_name : Option String
  created_at : Nat
  deriving DecidableEq

/-- Row of the `locations` table (src/app.py lines 43-57).  `id` is the
AUTOINCREMENT key, `timestamp` the insertion time, `expires_at` nullable. -/
structure LocationRow where
  id : Nat
  pair_code : String
  user_id : Nat
  user_name : String
  latitude : ℚ
  longitude : ℚ
  battery_level : Option Int
  sharing_duration : String
  timestamp : Nat
  expires_at : Option Nat
  deriving DecidableEq

/-- Row of the `notifications` table (src/app.py lines 60-71). -/
structure NotificationRow where
  id : Nat
  pair_code : String
  from_user : String
  to_user : String
  message : String
  timestamp : Nat
  is_read : Bool
  deriving DecidableEq

/-- The whole SQLite database plus the current clock.  `nextLocId` and
`nextNotifId` model the AUTOINCREMENT counters. -/
structure DB where
  pairs : List Pair
  locations : List LocationRow
  notifications : List NotificationRow
  nextLocId : Nat
  nextNotifId : Nat
  now : Nat
  deriving DecidableEq

/-- The dict returned by `authenticate_pair` on success (src/app.py line 158). -/
structure PairInfo where
  pair_name : String
  user1_name : String
  user2_name : Option String
  deriving DecidableEq

/-- An uncaught Python exception.  `update_location` raises `TypeError`
when `fetchone()` returns `None` and the code subscripts it (line 179). -/
inductive PyErr where
  | typeError
  deriving DecidableEq

/-- A raised exception aborts before `conn.commit()`, so the database seen
afterwards is the pre-state; a normal return yields the new state. -/
def pyStateAfter (r : Except PyErr DB) (s : DB) : DB :=
  match r with
  | .ok s' => s'
  | .error _ => s

/-- Python truthiness of a nullable string column: `None` and `""` are
falsy (used by `if user2_name:` in `join_pair`, src/app.py line 125). -/
def truthy (v : Option String) : Bool :=
  match v with
  | none => false
  | some s => !s.isEmpty

/-- Decimal digit characters, most significant first, computed with an
explicit fuel argument (structural recursion, so it evaluates by kernel
reduction); any fuel above the digit count gives the digits of `n`. -/
def decDigitsAux : Nat → Nat → List Char
  | 0, _ => []
  | fuel + 1, n =>
    if n < 10 then [Char.ofNat (48 + n)]
    else decDigitsAux fuel (n / 10) ++ [Char.ofNat (48 + n % 10)]

/-- Decimal digit characters of `n`, most significant first, as produced by
Python `str(n)` for a nonnegative integer (no sign, no padding): fuel
`n + 1` always suffices since the argument shrinks at every step. -/
def decDigits (n : Nat) : List Char := decDigitsAux (n + 1) n

/-- Python format spec `{n:05d}` for a nonnegative integer: the decimal
digits of `n`, left-padded with zeros to at least width 5. -/
def format05 (n : Nat) : String :=
  let s := String.mk (decDigits n)
  String.mk (List.replicate (5 - s.length) '0') ++ s

/-- `generate_pair_code` (src/app.py lines 76-78):
`f"PB-{secrets.randbelow(99999):05d}"`, with the random draw
`secrets.randbelow(99999)` passed in as the argument `n` (so `n < 99999`
at every actual call). -/
def generate_pair_code (n : Nat) : String :=
  "PB-" ++ format05 n

/-- `hash_passphrase` (src/app.py lines 80-82).  The SHA-256 hex digest is
abstracted as an injective tagging function: every theorem below depends
only on digests of equal passphrases being equal and digests of the
concrete distinct passphrases used being distinct, which SHA-256 satisfies
on those inputs. -/
def hash_passphrase (passphrase : String) : String :=
  "sha256:" ++ passphrase

/-- `create_pair` (src/app.py lines 84-103).  `draws` is the stream of
successive outputs of `secrets.randbelow(99999)`; the retry loop uses the
first draw whose code is not already in `pairs`.  `none` models the loop
consuming the entire supplied stream without finding a fresh code. -/
def create_pair (pair_name passphrase user_name : String) (draws : List Nat)
    (s : DB) : Option (String × DB) :=
  match draws.find? (fun n =>
      (s.pairs.find? (fun p => p.pair_code = generate_pair_code n)).isNone) with
  | none => none
  | some n =>
    let pair_code := generate_pair_code n
    let newPair : Pair :=
      { pair_code := pair_code, pair_name := pair_name,
        passphrase_hash := hash_passphrase passphrase,
        user1_name := user_name, user2_name := none, created_at := s.now }
    some (pair_code, { s with pairs := s.pairs ++ [newPair] })

/-- `join_pair` (src/app.py lines 105-135).  Checks, in source order:
unknown code, passphrase hash mismatch, `user2_name` truthy; otherwise
sets `user2_name` on the row with this primary key. -/
def join_pair (pair_code passphrase user_name : String) (s : DB) :
    (Bool × String) × DB :=
  match s.pairs.find? (fun p => p.pair_code = pair_code) with
  | none => ((false, "Pair code not found"), s)
  | some p =>
    if hash_passphrase passphrase ≠ p.passphrase_hash then
      ((false, "Incorrect passphrase"), s)
    else if truthy p.user2_name then
      ((false, "This pair is already complete"), s)
    else
      ((true, "Successfully joined " ++ p.pair_name ++ "!"),
       { s with pairs := s.pairs.map (fun q =>
           if q.pair_code = pair_code then { q with user2_name := some user_name }
           else q) })

/-- `authenticate_pair` (src/app.py lines 137-158): read-only; same
unknown-code and passphrase checks as `join_pair`, then returns the pair
info dict. -/
def authenticate_pair (pair_code passphrase : String) (s : DB) :
    Bool × Option PairInfo × String :=
  match s.pairs.find? (fun p => p.pair_code = pair_code) with
  | none => (false, none, "Pair code not found")
  | some p =>
    if hash_passphrase passphrase ≠ p.passphrase_hash then
      (false, none, "Incorrect passphrase")
    else
      (true, some { pair_name := p.pair_name, user1_name := p.user1_name,
                    user2_name := p.user2_name },
       "Authentication successful")

/-- Expiry computation of `update_location` (src/app.py lines 165-172).
`now.replace(hour=23, minute=59, second=59)` at one-second granularity is
the last second of the current calendar day, and `+ timedelta(days=1)`
adds 86400 seconds. -/
def expiryFor (sharing_duration : String) (now : Nat) : Option Nat :=
  if sharing_duration ≠ "Indefinitely" then
    if sharing_duration = "1 hour" then some (now + 3600)
    else if sharing_duration = "Until tomorrow" then
      some (now / 86400 * 86400 + (23 * 3600 + 59 * 60 + 59) + 86400)
    else none
  else none

/-- `update_location` (src/app.py lines 160-194).  Computes the expiry,
fetches the pair row — subscripting the `fetchone()` result raises
`TypeError` when the pair does not exist (line 179) — resolves the slot
by `1 if pair_info[0] == user_name else 2`, deletes any row for
(pair, slot), and inserts the new row. -/
def update_location (pair_code user_name : String) (latitude longitude : ℚ)
    (battery_level : Option Int) (sharing_duration : String) (s : DB) :
    Except PyErr DB :=
  let expires_at := expiryFor sharing_duration s.now
  match s.pairs.find? (fun p => p.pair_code = pair_code) with
  | none => .error PyErr.typeError
  | some p =>
    let user_id : Nat := if p.user1_name = user_name then 1 else 2
    let newRow : LocationRow :=
      { id := s.nextLocId, pair_code := pair_code, user_id := user_id,
        user_name := user_name, latitude := latitude, longitude := longitude,
        battery_level := battery_level, sharing_duration := sharing_duration,
        timestamp := s.now, expires_at := expires_at }
    .ok { s with
      locations :=
        s.locations.filter
          (fun r => ¬(r.pair_code = pair_code ∧ r.user_id = user_id)) ++ [newRow],
      nextLocId := s.nextLocId + 1 }

/-- Database state observed after a call to `update_location` (unchanged
when the call raises, since nothing was committed). -/
def updLoc (pair_code user_name : String) (latitude longitude : ℚ)
    (battery_level : Option Int) (sharing_duration : String) (s : DB) : DB :=
  pyStateAfter
    (update_location pair_code user_name latitude longitude battery_level
      sharing_duration s) s

/-- The purge predicate of `get_locations` (src/app.py lines 202-205):
`expires_at IS NOT NULL AND expires_at < CURRENT_TIMESTAMP`. -/
def isExpired (now : Nat) (r : LocationRow) : Bool :=
  match r.expires_at with
  | none => false
  | some t => t < now

/-- The columns selected by `get_locations` (src/app.py lines 207-212). -/
structure LocView where
  user_id : Nat
  user_name : String
  latitude : ℚ
  longitude : ℚ
  battery_level : Option Int
  timestamp : Nat
  sharing_duration : String
  deriving DecidableEq

/-- Projection of a location row onto the selected columns. -/
def LocationRow.view (r : LocationRow) : LocView :=
  { user_id := r.user_id, user_name := r.user_name, latitude := r.latitude,
    longitude := r.longitude, battery_level := r.battery_level,
    timestamp := r.timestamp, sharing_duration := r.sharing_duration }

/-- `get_locations` (src/app.py lines 196-216): first deletes every
expired row across all pairs, then returns the rows of the given pair,
`ORDER BY timestamp DESC`. -/
def get_locations (pair_code : String) (s : DB) : List LocView × DB :=
  let locations' := s.locations.filter (fun r => !(isExpired s.now r))
  let rows := List.insertionSort (fun a b : LocationRow => b.timestamp ≤ a.timestamp)
    (locations'.filter (fun r => r.pair_code = pair_code))
  (rows.map LocationRow.view, { s with locations := locations' })

/-- `send_pulse` (src/app.py lines 218-229): pure insert; the message
defaults to the canned string. -/
def send_pulse (pair_code from_user to_user : String)
    (message : String := "Thinking of you 💖") (s : DB) : DB :=
  { s with
    notifications := s.notifications ++
      [{ id := s.nextNotifId, pair_code := pair_code, from_user := from_user,
         to_user := to_user, message := message, timestamp := s.now,
         is_read := false }],
    nextNotifId := s.nextNotifId + 1 }

/-- The WHERE clause shared by the SELECT and the UPDATE of
`get_unread_notifications` (src/app.py lines 236-248):
`pair_code = ? AND to_user = ? AND is_read = FALSE`. -/
def unreadFor (pair_code user_name : String) (n : NotificationRow) : Bool :=
  n.pair_code = pair_code ∧ n.to_user = user_name ∧ n.is_read = false

/-- The columns selected by `get_unread_notifications` (lines 236-241). -/
structure NotifView where
  id : Nat
  from_user : String
  message : String
  timestamp : Nat
  deriving DecidableEq

/-- Projection of a notification row onto the selected columns. -/
def NotificationRow.view (n : NotificationRow) : NotifView :=
  { id := n.id, from_user := n.from_user, message := n.message,
    timestamp := n.timestamp }

/-- `get_unread_notifications` (src/app.py lines 231-252): selects the
unread rows addressed to the user, `ORDER BY timestamp DESC`, then marks
exactly the rows matching the same WHERE clause as read, in one
transaction. -/
def get_unread_notifications (pair_code user_name : String) (s : DB) :
    List NotifView × DB :=
  let sel := List.insertionSort (fun a b : NotificationRow => b.timestamp ≤ a.timestamp)
    (s.notifications.filter (unreadFor pair_code user_name))
  (sel.map NotificationRow.view,
   { s with notifications := s.notifications.map (fun n =>
       if unreadFor pair_code user_name n then { n with is_read := true } else n) })

/-- Midpoint annotation of `create_map` for two location rows
(src/app.py line 316): arithmetic average of the latitudes and of the
longitudes. -/
def create_map_midpoint (l0 l1 : LocationRow) : ℚ × ℚ :=
  ((l0.latitude + l1.latitude) / 2, (l0.longitude + l1.longitude) / 2)

/-- Distance annotation of `create_map` (src/app.py line 315):
`geopy.distance.geodesic(c0, c1).kilometers`, the geodesic distance on the
WGS-84 ellipsoid (geopy's default).  Modelled for two points on the
equator — the case the claims exercise — where the geodesic is the
equatorial arc: `a * |Δλ| * π / 180` km with equatorial radius
`a = 6378.137` km, valid for `|Δλ| ≤ 180`.  Floating-point rounding in
the library (far below 1e-6 km here) is ignored. -/
noncomputable def geodesic_wgs84_equator_km (lon0 lon1 : ℚ) : ℝ :=
  6378.137 * |(lon0 : ℝ) - (lon1 : ℝ)| * Real.pi / 180

/-- All operations of the store, for stating state invariants. -/
inductive Op where
  | createPair (pair_name passphrase user_name : String) (draws : List Nat)
  | joinPair (pair_code passphrase user_name : String)
  | authenticatePair (pair_code passphrase : String)
  | updateLocation (pair_code user_name : String) (latitude longitude : ℚ)
      (battery_level : Option Int) (sharing_duration : String)
  | getLocations (pair_code : String)
  | sendPulse (pair_code from_user to_user message : String)
  | getUnreadNotifications (pair_code user_name : String)

/-- The database state after running one operation (an operation that
raises, or a `create_pair` retry loop that exhausts its random stream,
leaves the state unchanged: nothing was committed). -/
def runOp (op : Op) (s : DB) : DB :=
  match op with
  | .createPair pn pass un draws =>
    match create_pair pn pass un draws s with
    | none => s
    | some (_, s') => s'
  | .joinPair pc pass un => (join_pair pc pass un s).2
  | .authenticatePair _ _ => s
  | .updateLocation pc un lat lon b d => updLoc pc un lat lon b d s
  | .getLocations pc => (get_locations pc s).2
  | .sendPulse pc f t m => send_pulse pc f t m s
  | .getUnreadNotifications pc un => (get_unread_notifications pc un s).2

/-- At most one location row per (`pair_code`, `user_id`) slot. -/
def LocInv (s : DB) : Prop :=
  ∀ (pc : String) (uid : Nat),
    s.locations.countP (fun r => r.pair_code = pc ∧ r.user_id = uid) ≤ 1

/-- Stated from the spec's words, for comparison with the code's expiry
computation: 23:59:59 of the next calendar day relative to `now`. -/
def endOfNextDay (now : Nat) : Nat :=
  (now / 86400 + 1) * 86400 + (23 * 3600 + 59 * 60 + 59)

/-- Stated from the spec's words: the code is `PB-` followed by exactly
five decimal digits. -/
def isPairCodeFormat (c : String) : Bool :=
  decide (c.data.take 3 = ['P', 'B', '-']) &&
  decide ((c.data.drop 3).length = 5) &&
  (c.data.drop 3).all Char.isDigit

/-- A concrete complete pair (both participants present), for instantiating
the universally quantified theorems below at a concrete input. -/
def samplePair : Pair :=
  { pair_code := "PB-00001", pair_name := "Alex & Sam",
    passphrase_hash := hash_passphrase "secret123", user1_name := "Alex",
    user2_name := some "Sam", created_at := 0 }

/-- A concrete database holding `samplePair` and nothing else. -/
def sampleDB : DB :=
  { pairs := [samplePair], locations := [], notifications := [],
    nextLocId := 1, nextNotifId := 1, now := 1000 }

/-- A concrete empty database. -/
def emptyDB : DB :=
  { pairs := [], locations := [], notifications := [],
    nextLocId := 1, nextNotifId := 1, now := 0 }

/-- Characterisation of a successful `update_location` call: when the pair
exists, the call returns, keeps every location row not in the resolved
slot, and appends the freshly inserted row. -/
theorem updLoc_spec (pc un : String) (lat lon : ℚ) (b : Option Int) (d : String)
    (s : DB) (p : Pair)
    (hp : s.pairs.find? (fun q => q.pair_code = pc) = some p) :
    updLoc pc un lat lon b d s =
      { s with
        locations := s.locations.filter
            (fun r => ¬(r.pair_code = pc ∧
              r.user_id = (if p.user1_name = un then 1 else 2))) ++
          [{ id := s.nextLocId, pair_code := pc,
             user_id := if p.user1_name = un then 1 else 2, user_name := un,
             latitude := lat, longitude := lon, battery_level := b,
             sharing_duration := d, timestamp := s.now,
             expires_at := expiryFor d s.now }],
        nextLocId := s.nextLocId + 1 } := by
  simp only [updLoc, update_location, hp, pyStateAfter]

/-- The rows of the resolved slot after a successful `update_location` are
exactly the single freshly inserted row. -/
theorem updLoc_slot_rows (pc un : String) (lat lon : ℚ) (b : Option Int)
    (d : String) (s : DB) (p : Pair)
    (hp : s.pairs.find? (fun q => q.pair_code = pc) = some p) :
    (updLoc pc un lat lon b d s).locations.filter
        (fun r => r.pair_code = pc ∧
          r.user_id = (if p.user1_name = un then 1 else 2)) =
      [{ id := s.nextLocId, pair_code := pc,
         user_id := if p.user1_name = un then 1 else 2, user_name := un,
         latitude := lat, longitude := lon, battery_level := b,
         sharing_duration := d, timestamp := s.now,
         expires_at := expiryFor d s.now }] := by
  rw [updLoc_spec pc un lat lon b d s p hp]
  rw [List.filter_append, List.filter_filter]
  simp

/-- A successful `update_location` does not touch the `pairs` table, the
clock, or the notifications. -/
theorem updLoc_frame (pc un : String) (lat lon : ℚ) (b : Option Int)
    (d : String) (s : DB) (p : Pair)
    (hp : s.pairs.find? (fun q => q.pair_code = pc) = some p) :
    (updLoc pc un lat lon b d s).pairs = s.pairs ∧
    (updLoc pc un lat lon b d s).now = s.now ∧
    (updLoc pc un lat lon b d s).nextLocId = s.nextLocId + 1 := by
  rw [updLoc_spec pc un lat lon b d s p hp]
  exact ⟨rfl, rfl, rfl⟩

/-- C3: the spec requires `updateLocation` on a nonexistent pair code to
fail with a signalled, recoverable `PairNotFound` error leaving the
locations store unchanged; the code instead subscripts the `None` returned
by `fetchone()` and raises an unhandled `TypeError` (src/app.py line 179).
Evaluated at the failing input: an update against code `PB-12345` on the
empty store raises, and the store is unchanged because the exception
precedes any committed write. -/
theorem c3_update_missing_pair_crashes :
    update_location "PB-12345" "Alex" 1 2 none "1 hour" emptyDB =
      .error PyErr.typeError ∧
    pyStateAfter (update_location "PB-12345" "Alex" 1 2 none "1 hour" emptyDB)
        emptyDB = emptyDB :=
  ⟨rfl, rfl⟩

/-- C2 (counterexample): `joinPair` on a pair that already has two
participants does NOT always fail with `AlreadyComplete`: the code checks
the passphrase hash first (src/app.py line 121), so with an incorrect
passphrase the failure is `AuthFailed` ("Incorrect passphrase"), not
`AlreadyComplete` ("This pair is already complete").  Shown on a concrete
complete pair with a wrong passphrase. -/
theorem c2_counterexample :
    (join_pair "PB-00001" "wrongpass" "Jordan" sampleDB).1 =
      (false, "Incorrect passphrase") ∧
    ((false : Bool), "Incorrect passphrase") ≠
      ((false : Bool), "This pair is already complete") :=
  ⟨rfl, by decide⟩

/-- C2 (amended): for every pair whose `user2_name` is set (to a non-empty
name — Python truthiness treats `""` like NULL), `joinPair` always fails
and never modifies the store: with `AlreadyComplete` when the passphrase
is correct, and with `AuthFailed` when it is not. -/
theorem c2_join_full_pair (s : DB) (pc pass un : String) (p : Pair)
    (u2 : String) (hp : s.pairs.find? (fun q => q.pair_code = pc) = some p)
    (h2 : p.user2_name = some u2) (hne : u2 ≠ "") :
    join_pair pc pass un s =
      if hash_passphrase pass = p.passphrase_hash then
        ((false, "This pair is already complete"), s)
      else
        ((false, "Incorrect passphrase"), s) := by
  have h3 : u2.isEmpty = false :=
    Bool.eq_false_iff.mpr (fun h => hne ((String.isEmpty_iff u2).mp h))
  have htr : truthy p.user2_name = true := by
    rw [h2]
    simp [truthy, h3]
  simp only [join_pair, hp, htr]
  by_cases h : hash_passphrase pass = p.passphrase_hash
  · simp [h]
  · simp [h]

/-- Witness for C2 (amended), at the concrete complete pair with the
correct passphrase. -/
theorem c2_join_full_pair_witness :
    join_pair "PB-00001" "secret123" "Jordan" sampleDB =
      if hash_passphrase "secret123" = samplePair.passphrase_hash then
        ((false, "This pair is already complete"), sampleDB)
      else
        ((false, "Incorrect passphrase"), sampleDB) :=
  c2_join_full_pair sampleDB "PB-00001" "secret123" "Jordan" samplePair "Sam"
    rfl rfl (by decide)

/-- `join_pair` never touches the `locations` table. -/
theorem join_pair_locations_eq (pc pass un : String) (s : DB) :
    (join_pair pc pass un s).2.locations = s.locations := by
  unfold join_pair
  cases h : s.pairs.find? (fun p => p.pair_code = pc) with
  | none => rfl
  | some p =>
    by_cases h1 : hash_passphrase pass ≠ p.passphrase_hash
    · simp [h1]
    · by_cases h2 : truthy p.user2_name <;> simp [h1, h2]

/-- `update_location` on a nonexistent pair raises before any write, so the
observed state is unchanged. -/
theorem updLoc_missing_pair (pc un : String) (lat lon : ℚ) (b : Option Int)
    (d : String) (s : DB)
    (hp : s.pairs.find? (fun q => q.pair_code = pc) = none) :
    updLoc pc un lat lon b d s = s := by
  simp [updLoc, update_location, hp, pyStateAfter]

/-- Every operation of the store preserves the at-most-one-row-per-slot
invariant on `locations`. -/
theorem runOp_locInv (op : Op) (s : DB) (h : LocInv s) : LocInv (runOp op s) := by
  cases op with
  | createPair pn pass un draws =>
    simp only [runOp]
    cases hc : create_pair pn pass un draws s with
    | none => exact h
    | some v =>
      obtain ⟨code, s'⟩ := v
      have hl : s'.locations = s.locations := by
        unfold create_pair at hc
        cases hf : draws.find? (fun n =>
            (s.pairs.find? (fun p => p.pair_code = generate_pair_code n)).isNone) with
        | none => rw [hf] at hc; exact absurd hc (by simp)
        | some n =>
          rw [hf] at hc
          simp only [Option.some.injEq, Prod.mk.injEq] at hc
          rw [← hc.2]
      intro pc uid
      rw [hl]
      exact h pc uid
  | joinPair pc pass un =>
    intro pc' uid
    simp only [runOp]
    rw [join_pair_locations_eq]
    exact h pc' uid
  | authenticatePair pc pass => exact h
  | updateLocation pc un lat lon b d =>
    simp only [runOp]
    cases hp : s.pairs.find? (fun q => q.pair_code = pc) with
    | none =>
      rw [updLoc_missing_pair pc un lat lon b d s hp]
      exact h
    | some p =>
      rw [updLoc_spec pc un lat lon b d s p hp]
      intro pc' uid
      simp only [List.countP_append]
      by_cases hx : pc' = pc ∧ uid = (if p.user1_name = un then 1 else 2)
      · have h0 : (s.locations.filter (fun r => ¬(r.pair_code = pc ∧
            r.user_id = (if p.user1_name = un then 1 else 2)))).countP
            (fun r => r.pair_code = pc' ∧ r.user_id = uid) = 0 := by
          rw [List.countP_eq_zero]
          intro a ha
          have h2 := List.of_mem_filter ha
          simp only [decide_eq_true_eq] at h2 ⊢
          rw [hx.1, hx.2]
          exact h2
        rw [h0, Nat.zero_add]
        exact le_trans (List.countP_le_length _) (by simp)
      · have h1 : List.countP (fun r => r.pair_code = pc' ∧ r.user_id = uid)
            [({ id := s.nextLocId, pair_code := pc,
                user_id := if p.user1_name = un then 1 else 2, user_name := un,
                latitude := lat, longitude := lon, battery_level := b,
                sharing_duration := d, timestamp := s.now,
                expires_at := expiryFor d s.now } : LocationRow)] = 0 := by
          simp only [List.countP_cons, List.countP_nil]
          have : ¬(pc = pc' ∧ (if p.user1_name = un then 1 else 2) = uid) := by
            intro hcon
            exact hx ⟨hcon.1.symm, hcon.2.symm⟩
          simp [this]
        rw [h1, Nat.add_zero]
        exact le_trans
          (List.Sublist.countP_le _ (List.filter_sublist _)) (h pc' uid)
  | getLocations pc =>
    intro pc' uid
    exact le_trans
      (List.Sublist.countP_le _ (List.filter_sublist _)) (h pc' uid)
  | sendPulse pc f t m =>
    intro pc' uid
    exact h pc' uid
  | getUnreadNotifications pc un =>
    intro pc' uid
    exact h pc' uid

/-- C1: after any successful `updateLocation` for a (pair, slot) there is
exactly one location row for that slot, holding that call's latitude,
longitude, battery level and sharing duration; two successive calls for
the same (pair, user) leave exactly one row with the second call's values;
and no operation of the store ever creates a second row for the same
(`pair_code`, `user_id`). -/
theorem c1_one_row_per_slot :
    (∀ (s : DB) (pc un : String) (lat lon : ℚ) (b : Option Int) (d : String)
      (p : Pair),
      s.pairs.find? (fun q => q.pair_code = pc) = some p →
      ((updLoc pc un lat lon b d s).locations.filter
          (fun r => r.pair_code = pc ∧
            r.user_id = (if p.user1_name = un then 1 else 2))).map
        (fun r => (r.user_name, r.latitude, r.longitude, r.battery_level,
          r.sharing_duration)) = [(un, lat, lon, b, d)]) ∧
    (∀ (s : DB) (pc un : String) (lat1 lon1 lat2 lon2 : ℚ) (b1 b2 : Option Int)
      (d1 d2 : String) (p : Pair),
      s.pairs.find? (fun q => q.pair_code = pc) = some p →
      ((updLoc pc un lat2 lon2 b2 d2
          (updLoc pc un lat1 lon1 b1 d1 s)).locations.filter
          (fun r => r.pair_code = pc ∧
            r.user_id = (if p.user1_name = un then 1 else 2))).map
        (fun r => (r.user_name, r.latitude, r.longitude, r.battery_level,
          r.sharing_duration)) = [(un, lat2, lon2, b2, d2)]) ∧
    (∀ (op : Op) (s : DB), LocInv s → LocInv (runOp op s)) := by
  refine ⟨?_, ?_, runOp_locInv⟩
  · intro s pc un lat lon b d p hp
    rw [updLoc_slot_rows pc un lat lon b d s p hp]
    rfl
  · intro s pc un lat1 lon1 lat2 lon2 b1 b2 d1 d2 p hp
    have hp1 : (updLoc pc un lat1 lon1 b1 d1 s).pairs.find?
        (fun q => q.pair_code = pc) = some p := by
      rw [(updLoc_frame pc un lat1 lon1 b1 d1 s p hp).1]
      exact hp
    rw [updLoc_slot_rows pc un lat2 lon2 b2 d2 _ p hp1]
    rfl

/-- Witness for C1: two successive updates by Alex on the sample pair leave
exactly the second row, and a pulse send preserves the slot invariant. -/
theorem c1_one_row_per_slot_witness :
    (((updLoc "PB-00001" "Alex" 3 4 (some 80) "Until tomorrow"
        (updLoc "PB-00001" "Alex" 1 2 (some 50) "1 hour" sampleDB)).locations.filter
        (fun r => r.pair_code = "PB-00001" ∧
          r.user_id = (if samplePair.user1_name = "Alex" then 1 else 2))).map
      (fun r => (r.user_name, r.latitude, r.longitude, r.battery_level,
        r.sharing_duration)) =
      [("Alex", 3, 4, some 80, "Until tomorrow")]) ∧
    LocInv (runOp (Op.sendPulse "PB-00001" "Alex" "Sam" "hi") sampleDB) :=
  ⟨c1_one_row_per_slot.2.1 sampleDB "PB-00001" "Alex" 1 2 3 4 (some 50)
      (some 80) "1 hour" "Until tomorrow" samplePair rfl,
   c1_one_row_per_slot.2.2 (Op.sendPulse "PB-00001" "Alex" "Sam" "hi") sampleDB
      (fun pc uid => by simp [sampleDB, LocInv])⟩

/-- C5: the stored `expires_at` of an `updateLocation` call is computed
from `sharing_duration`: "1 hour" stores now + one hour, "Until tomorrow"
stores 23:59:59 of the next calendar day relative to now, and
"Indefinitely" stores NULL. -/
theorem c5_expiry_computation (s : DB) (pc un : String) (lat lon : ℚ)
    (b : Option Int) (p : Pair)
    (hp : s.pairs.find? (fun q => q.pair_code = pc) = some p) :
    ((updLoc pc un lat lon b "1 hour" s).locations.filter
        (fun r => r.pair_code = pc ∧
          r.user_id = (if p.user1_name = un then 1 else 2))).map
      (fun r => r.expires_at) = [some (s.now + 3600)] ∧
    ((updLoc pc un lat lon b "Until tomorrow" s).locations.filter
        (fun r => r.pair_code = pc ∧
          r.user_id = (if p.user1_name = un then 1 else 2))).map
      (fun r => r.expires_at) = [some (endOfNextDay s.now)] ∧
    ((updLoc pc un lat lon b "Indefinitely" s).locations.filter
        (fun r => r.pair_code = pc ∧
          r.user_id = (if p.user1_name = un then 1 else 2))).map
      (fun r => r.expires_at) = [none] := by
  refine ⟨?_, ?_, ?_⟩
  · rw [updLoc_slot_rows pc un lat lon b "1 hour" s p hp]
    simp [expiryFor]
  · rw [updLoc_slot_rows pc un lat lon b "Until tomorrow" s p hp]
    have he : expiryFor "Until tomorrow" s.now =
        some (s.now / 86400 * 86400 + (23 * 3600 + 59 * 60 + 59) + 86400) := rfl
    have harith : s.now / 86400 * 86400 + (23 * 3600 + 59 * 60 + 59) + 86400 =
        endOfNextDay s.now := by
      unfold endOfNextDay
      omega
    simp only [List.map_cons, List.map_nil, he, harith]
  · rw [updLoc_slot_rows pc un lat lon b "Indefinitely" s p hp]
    simp [expiryFor]

/-- Witness for C5 at the sample pair, clock at second 1000. -/
theorem c5_expiry_computation_witness :
    ((updLoc "PB-00001" "Alex" 1 2 (some 50) "1 hour" sampleDB).locations.filter
        (fun r => r.pair_code = "PB-00001" ∧
          r.user_id = (if samplePair.user1_name = "Alex" then 1 else 2))).map
      (fun r => r.expires_at) = [some (sampleDB.now + 3600)] ∧
    ((updLoc "PB-00001" "Alex" 1 2 (some 50) "Until tomorrow"
        sampleDB).locations.filter
        (fun r => r.pair_code = "PB-00001" ∧
          r.user_id = (if samplePair.user1_name = "Alex" then 1 else 2))).map
      (fun r => r.expires_at) = [some (endOfNextDay sampleDB.now)] ∧
    ((updLoc "PB-00001" "Alex" 1 2 (some 50) "Indefinitely"
        sampleDB).locations.filter
        (fun r => r.pair_code = "PB-00001" ∧
          r.user_id = (if samplePair.user1_name = "Alex" then 1 else 2))).map
      (fun r => r.expires_at) = [none] :=
  c5_expiry_computation sampleDB "PB-00001" "Alex" 1 2 (some 50) samplePair rfl

/-- C8: the caller's name resolves to slot 1 exactly when it equals the
pair's stored `user1_name`, to slot 2 when it equals `user2_name` (and not
`user1_name`), and to slot 2 as fallback when it matches neither; the
inserted row's `user_id` is that resolved slot. -/
theorem c8_slot_resolution (s : DB) (pc un : String) (lat lon : ℚ)
    (b : Option Int) (d : String) (p : Pair)
    (hp : s.pairs.find? (fun q => q.pair_code = pc) = some p) :
    (((updLoc pc un lat lon b d s).locations.filter
        (fun r => r.pair_code = pc ∧
          r.user_id = (if p.user1_name = un then 1 else 2))).map
      (fun r => r.user_id) = [if p.user1_name = un then 1 else 2]) ∧
    (((if p.user1_name = un then 1 else 2) : Nat) = 1 ↔ un = p.user1_name) ∧
    (p.user2_name = some un → p.user1_name ≠ un →
      ((if p.user1_name = un then 1 else 2) : Nat) = 2) ∧
    (p.user1_name ≠ un → p.user2_name ≠ some un →
      ((if p.user1_name = un then 1 else 2) : Nat) = 2) := by
  refine ⟨?_, ?_, fun _ h1 => if_neg h1, fun h1 _ => if_neg h1⟩
  · rw [updLoc_slot_rows pc un lat lon b d s p hp]
    rfl
  · by_cases h : p.user1_name = un
    · simp [h, eq_comm]
    · simp only [h, if_false]
      constructor
      · intro hc
        exact absurd hc (by omega)
      · intro hc
        exact absurd hc.symm h

/-- Witness for C8: Sam (the stored `user2_name`) resolves to slot 2 on the
sample pair. -/
theorem c8_slot_resolution_witness :
    (((updLoc "PB-00001" "Sam" 1 2 none "Indefinitely" sampleDB).locations.filter
        (fun r => r.pair_code = "PB-00001" ∧
          r.user_id = (if samplePair.user1_name = "Sam" then 1 else 2))).map
      (fun r => r.user_id) = [if samplePair.user1_name = "Sam" then 1 else 2]) ∧
    (((if samplePair.user1_name = "Sam" then 1 else 2) : Nat) = 1 ↔
      "Sam" = samplePair.user1_name) ∧
    (samplePair.user2_name = some "Sam" → samplePair.user1_name ≠ "Sam" →
      ((if samplePair.user1_name = "Sam" then 1 else 2) : Nat) = 2) ∧
    (samplePair.user1_name ≠ "Sam" → samplePair.user2_name ≠ some "Sam" →
      ((if samplePair.user1_name = "Sam" then 1 else 2) : Nat) = 2) :=
  c8_slot_resolution sampleDB "PB-00001" "Sam" 1 2 none "Indefinitely"
    samplePair rfl

/-- C10: any `sharing_duration` other than "1 hour" and "Until tomorrow"
(not only "Indefinitely") stores `expires_at` NULL — never-expiring — and
stores the duration string verbatim. -/
theorem c10_unrecognized_duration (s : DB) (pc un : String) (lat lon : ℚ)
    (b : Option Int) (d : String) (p : Pair)
    (hp : s.pairs.find? (fun q => q.pair_code = pc) = some p)
    (h1 : d ≠ "1 hour") (h2 : d ≠ "Until tomorrow") :
    ((updLoc pc un lat lon b d s).locations.filter
        (fun r => r.pair_code = pc ∧
          r.user_id = (if p.user1_name = un then 1 else 2))).map
      (fun r => (r.expires_at, r.sharing_duration)) = [(none, d)] := by
  rw [updLoc_slot_rows pc un lat lon b d s p hp]
  have he : expiryFor d s.now = none := by
    unfold expiryFor
    by_cases h3 : d = "Indefinitely"
    · simp [h3]
    · simp [h3, h1, h2]
  simp [he]

/-- Witness for C10 at the arbitrary unrecognized duration "2 hours". -/
theorem c10_unrecognized_duration_witness :
    ((updLoc "PB-00001" "Alex" 1 2 (some 50) "2 hours" sampleDB).locations.filter
        (fun r => r.pair_code = "PB-00001" ∧
          r.user_id = (if samplePair.user1_name = "Alex" then 1 else 2))).map
      (fun r => (r.expires_at, r.sharing_duration)) = [(none, "2 hours")] :=
  c10_unrecognized_duration sampleDB "PB-00001" "Alex" 1 2 (some 50) "2 hours"
    samplePair rfl (by decide) (by decide)

/-- The character of a decimal digit is a digit character. -/
theorem digitChar_isDigit (k : Nat) (hk : k < 10) :
    (Char.ofNat (48 + k)).isDigit = true := by
  interval_cases k <;> decide

/-- Every character produced by `decDigitsAux` is a decimal digit. -/
theorem decDigitsAux_digits (fuel : Nat) :
    ∀ (n : Nat) (c : Char), c ∈ decDigitsAux fuel n → c.isDigit = true := by
  induction fuel with
  | zero =>
    intro n c hc
    simp [decDigitsAux] at hc
  | succ f ih =>
    intro n c hc
    simp only [decDigitsAux] at hc
    split at hc
    · rename_i h10
      simp only [List.mem_singleton] at hc
      subst hc
      exact digitChar_isDigit n h10
    · rw [List.mem_append] at hc
      rcases hc with hc | hc
      · exact ih (n / 10) c hc
      · simp only [List.mem_singleton] at hc
        subst hc
        exact digitChar_isDigit (n % 10) (Nat.mod_lt n (by omega))

/-- With enough fuel, a number below `10 ^ k` has at most `k` digits. -/
theorem decDigitsAux_length (fuel : Nat) :
    ∀ (n k : Nat), n < fuel → n < 10 ^ k → 1 ≤ k →
      (decDigitsAux fuel n).length ≤ k := by
  induction fuel with
  | zero =>
    intro n k h _ _
    omega
  | succ f ih =>
    intro n k hfuel hk hk1
    simp only [decDigitsAux]
    split
    · simpa using hk1
    · rename_i h10
      push_neg at h10
      have hkne : k ≠ 1 := by
        intro he
        subst he
        rw [pow_one] at hk
        omega
      have hpow : 10 ^ k = 10 * 10 ^ (k - 1) := by
        conv_lhs => rw [show k = (k - 1) + 1 by omega]
        rw [pow_succ]
        ring
      rw [hpow] at hk
      have hdiv : n / 10 < 10 ^ (k - 1) := Nat.div_lt_of_lt_mul hk
      have hfuel2 : n / 10 < f := by
        have h1 : n / 10 < n := Nat.div_lt_self (by omega) (by omega)
        omega
      have hlen := ih (n / 10) (k - 1) hfuel2 hdiv (by omega)
      simp only [List.length_append, List.length_cons, List.length_nil]
      omega

/-- Every code produced by `generate_pair_code` from a draw of
`secrets.randbelow(99999)` matches PB- followed by exactly five decimal
digits. -/
theorem generate_pair_code_format (n : Nat) (hn : n < 99999) :
    isPairCodeFormat (generate_pair_code n) = true := by
  have h5 : (10 : Nat) ^ 5 = 100000 := by norm_num
  have hlen : (decDigits n).length ≤ 5 :=
    decDigitsAux_length (n + 1) n 5 (by omega) (by omega) (by omega)
  have hmk : (String.mk (decDigits n)).length = (decDigits n).length := rfl
  have hdata : (generate_pair_code n).data =
      ['P', 'B', '-'] ++
        (List.replicate (5 - (String.mk (decDigits n)).length) '0' ++
          decDigits n) := by
    unfold generate_pair_code format05
    rw [String.data_append, String.data_append]
  unfold isPairCodeFormat
  rw [hdata, Bool.and_eq_true, Bool.and_eq_true, decide_eq_true_eq,
    decide_eq_true_eq]
  refine ⟨⟨?_, ?_⟩, ?_⟩
  · have htake := List.take_left ['P', 'B', '-']
      (List.replicate (5 - (String.mk (decDigits n)).length) '0' ++
        decDigits n)
    simpa using htake
  · have hdrop := List.drop_left ['P', 'B', '-']
      (List.replicate (5 - (String.mk (decDigits n)).length) '0' ++
        decDigits n)
    simp only [List.length_cons, List.length_nil] at hdrop
    rw [hdrop, List.length_append, List.length_replicate, hmk]
    omega
  · have hdrop := List.drop_left ['P', 'B', '-']
      (List.replicate (5 - (String.mk (decDigits n)).length) '0' ++
        decDigits n)
    simp only [List.length_cons, List.length_nil] at hdrop
    rw [hdrop, List.all_eq_true]
    intro c hc
    rw [List.mem_append] at hc
    rcases hc with hc | hc
    · rw [List.mem_replicate] at hc
      rw [hc.2]
      decide
    · exact decDigitsAux_digits (n + 1) n c hc

/-- C4: `createPair` (for draws of `secrets.randbelow(99999)`, however many
retries the collision loop needs) returns a code matching PB- plus exactly
five decimal digits, and authenticating with that code and the same
passphrase succeeds, returning the stored pair name, `user1_name` equal to
the creator, and `user2_name` NULL. -/
theorem c4_create_then_authenticate (pn pass cn : String) (draws : List Nat)
    (s : DB) (code : String) (s' : DB)
    (hd : ∀ n ∈ draws, n < 99999)
    (hc : create_pair pn pass cn draws s = some (code, s')) :
    isPairCodeFormat code = true ∧
    authenticate_pair code pass s' =
      (true, some { pair_name := pn, user1_name := cn, user2_name := none },
       "Authentication successful") := by
  unfold create_pair at hc
  cases hf : draws.find? (fun n =>
      (s.pairs.find? (fun p => p.pair_code = generate_pair_code n)).isNone) with
  | none =>
    rw [hf] at hc
    exact absurd hc (by simp)
  | some n =>
    rw [hf] at hc
    simp only [Option.some.injEq, Prod.mk.injEq] at hc
    obtain ⟨hcode, hs'⟩ := hc
    subst hcode
    subst hs'
    have hn : n < 99999 := hd n (List.mem_of_find?_eq_some hf)
    have hfresh : s.pairs.find?
        (fun p => p.pair_code = generate_pair_code n) = none := by
      have h := List.find?_some hf
      simpa using h
    refine ⟨generate_pair_code_format n hn, ?_⟩
    simp only [authenticate_pair, List.find?_append, hfresh, Option.none_or]
    simp

/-- Witness for C4: creating the pair with random draw 7 on the empty store
yields code PB-00007, which authenticates with the same passphrase. -/
theorem c4_create_then_authenticate_witness :
    isPairCodeFormat "PB-00007" = true ∧
    authenticate_pair "PB-00007" "secret123"
      { pairs := [{ pair_code := "PB-00007", pair_name := "Alex & Sam",
                    passphrase_hash := hash_passphrase "secret123",
                    user1_name := "Alex", user2_name := none,
                    created_at := 0 }],
        locations := [], notifications := [], nextLocId := 1,
        nextNotifId := 1, now := 0 } =
      (true, some { pair_name := "Alex & Sam", user1_name := "Alex",
                    user2_name := none }, "Authentication successful") :=
  c4_create_then_authenticate "Alex & Sam" "secret123" "Alex" [7] emptyDB
    "PB-00007"
    { pairs := [{ pair_code := "PB-00007", pair_name := "Alex & Sam",
                  passphrase_hash := hash_passphrase "secret123",
                  user1_name := "Alex", user2_name := none, created_at := 0 }],
      locations := [], notifications := [], nextLocId := 1, nextNotifId := 1,
      now := 0 }
    (by decide) (by decide)

/-- C6: `getLocations` first deletes every location row — across all
pairs — whose `expires_at` is non-null and earlier than the current time
(and deletes nothing else), then returns exactly the surviving rows of the
given pair, newest write first. -/
theorem c6_get_locations_purge_and_order (pc : String) (s : DB) :
    ((get_locations pc s).2.locations =
      s.locations.filter (fun r => !(isExpired s.now r))) ∧
    ((get_locations pc s).2.locations.Sublist s.locations) ∧
    ((get_locations pc s).1.Perm
      (((get_locations pc s).2.locations.filter
        (fun r => r.pair_code = pc)).map LocationRow.view)) ∧
    List.Sorted (fun a b : LocView => b.timestamp ≤ a.timestamp)
      (get_locations pc s).1 := by
  haveI : IsTotal LocationRow (fun a b => b.timestamp ≤ a.timestamp) :=
    ⟨fun a b => le_total b.timestamp a.timestamp⟩
  haveI : IsTrans LocationRow (fun a b => b.timestamp ≤ a.timestamp) :=
    ⟨fun a b c h1 h2 => le_trans h2 h1⟩
  refine ⟨rfl, ?_, ?_, ?_⟩
  · simp only [get_locations]
    exact List.filter_sublist s.locations
  · exact List.Perm.map LocationRow.view
      (List.perm_insertionSort
        (fun a b : LocationRow => b.timestamp ≤ a.timestamp) _)
  · exact List.Pairwise.map LocationRow.view (fun a b h => h)
      (List.sorted_insertionSort
        (fun a b : LocationRow => b.timestamp ≤ a.timestamp) _)

/-- C7: `getUnreadAndMarkRead` returns exactly the unread notifications of
the pair addressed to the recipient, newest first, marks exactly those
rows read in the same operation, and an immediately repeated call returns
the empty list. -/
theorem c7_unread_returned_once (pc un : String) (s : DB) :
    ((get_unread_notifications pc un s).1.Perm
      ((s.notifications.filter (unreadFor pc un)).map NotificationRow.view)) ∧
    List.Sorted (fun a b : NotifView => b.timestamp ≤ a.timestamp)
      (get_unread_notifications pc un s).1 ∧
    ((get_unread_notifications pc un s).2.notifications =
      s.notifications.map (fun n =>
        if unreadFor pc un n then { n with is_read := true } else n)) ∧
    (get_unread_notifications pc un
      ((get_unread_notifications pc un s).2)).1 = [] := by
  haveI : IsTotal NotificationRow (fun a b => b.timestamp ≤ a.timestamp) :=
    ⟨fun a b => le_total b.timestamp a.timestamp⟩
  haveI : IsTrans NotificationRow (fun a b => b.timestamp ≤ a.timestamp) :=
    ⟨fun a b c h1 h2 => le_trans h2 h1⟩
  refine ⟨?_, ?_, rfl, ?_⟩
  · exact List.Perm.map NotificationRow.view
      (List.perm_insertionSort
        (fun a b : NotificationRow => b.timestamp ≤ a.timestamp) _)
  · exact List.Pairwise.map NotificationRow.view (fun a b h => h)
      (List.sorted_insertionSort
        (fun a b : NotificationRow => b.timestamp ≤ a.timestamp) _)
  · have hnil : ((get_unread_notifications pc un s).2.notifications).filter
        (unreadFor pc un) = [] := by
      rw [List.filter_eq_nil_iff]
      intro a ha
      simp only [get_unread_notifications, List.mem_map] at ha
      obtain ⟨m, hm, rfl⟩ := ha
      cases hu : unreadFor pc un m with
      | false =>
        simp only [hu, Bool.false_eq_true, if_false]
        simp [hu]
      | true =>
        simp only [hu, if_true]
        simp [unreadFor]
    show (List.insertionSort (fun a b : NotificationRow => b.timestamp ≤ a.timestamp)
        (((get_unread_notifications pc un s).2.notifications).filter
          (unreadFor pc un))).map NotificationRow.view = []
    rw [hnil]
    rfl

/-- The distance annotation at the claim's scenario equals the equatorial
arc for one degree of longitude, `6378.137 * π / 180` km. -/
theorem geodesic_equator_one_degree :
    geodesic_wgs84_equator_km 0 1 = 6378.137 * Real.pi / 180 := by
  unfold geodesic_wgs84_equator_km
  push_cast
  rw [zero_sub, abs_neg, abs_one]
  ring

/-- C9 (counterexample): for the locations (0,0) and (0,1) the computed
distance is NOT approximately 111.19 km (within a two-decimal tolerance of
0.05): `geopy.distance.geodesic` uses the WGS-84 ellipsoid, whose
equatorial arc for one degree is about 111.32 km; 111.19 km would be the
spherical mean-radius value.  The gap exceeds 0.05. -/
theorem c9_counterexample :
    ¬(|geodesic_wgs84_equator_km 0 1 - 111.19| ≤ 1 / 20) := by
  have hpi := Real.pi_gt_d6
  rw [geodesic_equator_one_degree]
  intro h
  rw [abs_le] at h
  have h2 := h.2
  linarith

/-- C9 (amended): for the two locations (0,0) and (0,1) in decimal degrees
the computed great-circle distance is approximately 111.32 km (the WGS-84
equatorial arc of one degree of longitude, 111.3195 km), and the computed
midpoint is (0, 0.5), the arithmetic average of the two latitudes and of
the two longitudes. -/
theorem c9_distance_and_midpoint :
    (111.319 < geodesic_wgs84_equator_km 0 1 ∧
     geodesic_wgs84_equator_km 0 1 < 111.320) ∧
    create_map_midpoint
      { id := 1, pair_code := "PB-00001", user_id := 1, user_name := "Alex",
        latitude := 0, longitude := 0, battery_level := none,
        sharing_duration := "Indefinitely", timestamp := 0,
        expires_at := none }
      { id := 2, pair_code := "PB-00001", user_id := 2, user_name := "Sam",
        latitude := 0, longitude := 1, battery_level := none,
        sharing_duration := "Indefinitely", timestamp := 0,
        expires_at := none } = (0, 1 / 2) := by
  refine ⟨⟨?_, ?_⟩, ?_⟩
  · have hpi := Real.pi_gt_d6
    rw [geodesic_equator_one_degree]
    linarith
  · have hpi := Real.pi_lt_d6
    rw [geodesic_equator_one_degree]
    linarith
  · unfold create_map_midpoint
    norm_num

end PairBond
